import Mathlib

/-!
Verification of the RAG subsystem of the langchain-based agent framework:
a shallow embedding of `agent/rag/document_processor.py`,
`agent/rag/vector_store.py` and `agent/rag/retrieval_tool.py`,
together with proofs about the data model and operations.

Python strings are modelled as Lean `String`, Python `dict` metadata as an
association list with last-write-wins update, machine integers as `Nat`
with explicit reduction modulo 2^32 / 2^64 where the MD5 hash needs it,
and fallible external calls (embedding model, backend search) as `Except`
values supplied by the caller.
-/

namespace Rag

/-- A Python metadata value: the repository stores strings, ints and
timestamps in document metadata dictionaries. -/
inductive MVal where
  | str : String → MVal
  | nat : Nat → MVal
  | int : Int → MVal
  deriving DecidableEq, Repr

/-- Rendering of a metadata value inside a Python f-string. -/
def MVal.render : MVal → String
  | .str s => s
  | .nat n => toString n
  | .int i => toString i

/-- A Python `dict[str, ...]` for metadata, as an association list:
first occurrence of a key is its binding. -/
abbrev Meta := List (String × MVal)

/-- `m.get(k)` on a Python dict. -/
def dget : Meta → String → Option MVal
  | [], _ => none
  | (k, v) :: rest, key => if k = key then some v else dget rest key

/-- `m[k] = v` on a Python dict: replace in place if present, append otherwise. -/
def dset : Meta → String → MVal → Meta
  | [], k, v => [(k, v)]
  | (k0, v0) :: rest, k, v =>
      if k0 = k then (k0, v) :: rest else (k0, v0) :: dset rest k v

/-- `m.update(upd)` on a Python dict: set every binding of `upd` in order. -/
def dmerge (m : Meta) (upd : Meta) : Meta :=
  upd.foldl (fun acc kv => dset acc kv.1 kv.2) m

@[simp] theorem dget_nil (k : String) : dget [] k = none := rfl

@[simp] theorem dget_cons (k0 : String) (v0 : MVal) (rest : Meta) (k : String) :
    dget ((k0, v0) :: rest) k = if k0 = k then some v0 else dget rest k := rfl

theorem dget_dset_same (m : Meta) (k : String) (v : MVal) :
    dget (dset m k v) k = some v := by
  induction m with
  | nil => simp [dset]
  | cons hd tl ih =>
      obtain ⟨k0, v0⟩ := hd
      by_cases h : k0 = k
      · simp [dset, h]
      · simp [dset, h, ih]

theorem dget_dset_other (m : Meta) (k k' : String) (v : MVal) (hne : k ≠ k') :
    dget (dset m k v) k' = dget m k' := by
  induction m with
  | nil => simp [dset, hne]
  | cons hd tl ih =>
      obtain ⟨k0, v0⟩ := hd
      by_cases h : k0 = k
      · subst h
        simp [dset, hne]
      · simp [dset, h, ih]

@[simp] theorem dmerge_nil (m : Meta) : dmerge m [] = m := rfl

theorem dmerge_cons (m : Meta) (k : String) (v : MVal) (rest : Meta) :
    dmerge m ((k, v) :: rest) = dmerge (dset m k v) rest := rfl

/-- A langchain `Document`: page content plus a metadata dict. -/
structure Doc where
  content : String
  metadata : Meta
  deriving DecidableEq, Repr

/-!
String primitives over the character list, mirroring the Python string
operations the source uses (`split`, `strip`, `lower`, slicing); they are
written by structural recursion so that every definition in this file
evaluates by kernel reduction.
-/

/-- Splitting a character list on a nonempty separator; `fuel` bounds the
recursion, the list's length is always enough. -/
def splitOnFuel (sep : List Char) : Nat → List Char → List Char → List (List Char)
  | _, acc, [] => [acc.reverse]
  | 0, acc, l => [acc.reverse ++ l]
  | fuel + 1, acc, c :: rest =>
      if sep.isPrefixOf (c :: rest) then
        acc.reverse :: splitOnFuel sep fuel [] ((c :: rest).drop sep.length)
      else splitOnFuel sep fuel (c :: acc) rest

/-- Python `s.split(sep)` for a nonempty `sep` (also the semantics of the
langchain splitter's separator split). -/
def splitOnStr (sep s : String) : List String :=
  if sep = "" then [s]
  else (splitOnFuel sep.data s.data.length [] s.data).map String.mk

/-- The characters Python `str.strip()` removes. -/
def isPyWS (c : Char) : Bool :=
  c = ' ' ∨ c = '\t' ∨ c = '\n' ∨ c = '\r' ∨ c = '\x0b' ∨ c = '\x0c'

/-- Python `s.strip()`. -/
def trimStr (s : String) : String :=
  String.mk (((s.data.dropWhile isPyWS).reverse.dropWhile isPyWS).reverse)

/-- Python `s.lower()` (over the ASCII range the source compares). -/
def lowerStr (s : String) : String := String.mk (s.data.map Char.toLower)

/-- Python `s[:n]`. -/
def takeStr (n : Nat) (s : String) : String := String.mk (s.data.take n)

/-- Python `s.endswith(post)`. -/
def endsWithStr (post s : String) : Bool := post.data.isSuffixOf s.data

/-!
The MD5 hash, RFC 1321, over byte lists: `document_processor.py` derives
`doc_id` as `hashlib.md5(content.encode("utf-8")).hexdigest()`. Words are
`Nat` reduced modulo 2^32.
-/

/-- Reduce to a 32-bit word. -/
def w32 (n : Nat) : Nat := n % 4294967296

/-- 32-bit modular addition. -/
def wadd (a b : Nat) : Nat := w32 (a + b)

/-- 32-bit bitwise complement. -/
def wnot (a : Nat) : Nat := Nat.xor (w32 a) 4294967295

/-- 32-bit left rotation. -/
def rotl (a s : Nat) : Nat := (w32 ((w32 a) <<< s)) ||| ((w32 a) >>> (32 - s))

/-- The 64 MD5 sine-derived constants of RFC 1321. -/
def md5K : List Nat :=
  [0xd76aa478, 0xe8c7b756, 0x242070db, 0xc1bdceee,
   0xf57c0faf, 0x4787c62a, 0xa8304613, 0xfd469501,
   0x698098d8, 0x8b44f7af, 0xffff5bb1, 0x895cd7be,
   0x6b901122, 0xfd987193, 0xa679438e, 0x49b40821,
   0xf61e2562, 0xc040b340, 0x265e5a51, 0xe9b6c7aa,
   0xd62f105d, 0x02441453, 0xd8a1e681, 0xe7d3fbc8,
   0x21e1cde6, 0xc33707d6, 0xf4d50d87, 0x455a14ed,
   0xa9e3e905, 0xfcefa3f8, 0x676f02d9, 0x8d2a4c8a,
   0xfffa3942, 0x8771f681, 0x6d9d6122, 0xfde5380c,
   0xa4beea44, 0x4bdecfa9, 0xf6bb4b60, 0xbebfbc70,
   0x289b7ec6, 0xeaa127fa, 0xd4ef3085, 0x04881d05,
   0xd9d4d039, 0xe6db99e5, 0x1fa27cf8, 0xc4ac5665,
   0xf4292244, 0x432aff97, 0xab9423a7, 0xfc93a039,
   0x655b59c3, 0x8f0ccc92, 0xffeff47d, 0x85845dd1,
   0x6fa87e4f, 0xfe2ce6e0, 0xa3014314, 0x4e0811a1,
   0xf7537e82, 0xbd3af235, 0x2ad7d2bb, 0xeb86d391]

/-- The 64 MD5 per-round rotation amounts. -/
def md5S : List Nat :=
  [7, 12, 17, 22, 7, 12, 17, 22, 7, 12, 17, 22, 7, 12, 17, 22,
   5, 9, 14, 20, 5, 9, 14, 20, 5, 9, 14, 20, 5, 9, 14, 20,
   4, 11, 16, 23, 4, 11, 16, 23, 4, 11, 16, 23, 4, 11, 16, 23,
   6, 10, 15, 21, 6, 10, 15, 21, 6, 10, 15, 21, 6, 10, 15, 21]

/-- The MD5 round mixing function F/G/H/I, selected by round index. -/
def md5F (i b c d : Nat) : Nat :=
  if i < 16 then (b &&& c) ||| ((wnot b) &&& d)
  else if i < 32 then (d &&& b) ||| ((wnot d) &&& c)
  else if i < 48 then Nat.xor (Nat.xor b c) d
  else Nat.xor c (b ||| (wnot d))

/-- The MD5 message-word index for round `i`. -/
def md5G (i : Nat) : Nat :=
  if i < 16 then i
  else if i < 32 then (5 * i + 1) % 16
  else if i < 48 then (3 * i + 5) % 16
  else (7 * i) % 16

/-- One MD5 round on state `(a, b, c, d)` with message words `m`. -/
def md5Step (m : List Nat) (st : Nat × Nat × Nat × Nat) (i : Nat) :
    Nat × Nat × Nat × Nat :=
  let b := st.2.1
  let c := st.2.2.1
  let d := st.2.2.2
  let f := wadd (wadd (wadd (md5F i b c d) st.1) (md5K.getD i 0)) (m.getD (md5G i) 0)
  (d, wadd b (rotl f (md5S.getD i 0)), b, c)

/-- Process one 16-word MD5 block. -/
def md5Block (st : Nat × Nat × Nat × Nat) (m : List Nat) : Nat × Nat × Nat × Nat :=
  let r := (List.range 64).foldl (md5Step m) st
  (wadd st.1 r.1, wadd st.2.1 r.2.1, wadd st.2.2.1 r.2.2.1, wadd st.2.2.2 r.2.2.2)

/-- Little-endian byte serialization of `n` into `k` bytes. -/
def toBytesLE : Nat → Nat → List Nat
  | 0, _ => []
  | k + 1, n => (n % 256) :: toBytesLE k (n / 256)

/-- Assemble little-endian 32-bit words from a byte list. -/
def bytesToWords : List Nat → List Nat
  | b0 :: b1 :: b2 :: b3 :: rest =>
      (b0 + 256 * (b1 + 256 * (b2 + 256 * b3))) :: bytesToWords rest
  | _ => []

/-- MD5 padding: a `0x80` byte, zeros to 56 mod 64, then the 64-bit
little-endian bit length. -/
def md5Pad (msg : List Nat) : List Nat :=
  msg ++ [128] ++ List.replicate ((119 - msg.length % 64) % 64) 0 ++
    toBytesLE 8 ((8 * msg.length) % 18446744073709551616)

/-- Fold `md5Block` over consecutive 64-byte blocks; `fuel` bounds the
recursion and any value above the number of blocks is enough. -/
def md5Blocks (fuel : Nat) (st : Nat × Nat × Nat × Nat) (bytes : List Nat) :
    Nat × Nat × Nat × Nat :=
  match fuel, bytes with
  | 0, _ => st
  | _, [] => st
  | fuel + 1, bytes =>
      md5Blocks fuel (md5Block st (bytesToWords (bytes.take 64))) (bytes.drop 64)

/-- The 16-byte MD5 digest of a byte list. -/
def md5Digest (bytes : List Nat) : List Nat :=
  let padded := md5Pad bytes
  let r := md5Blocks (padded.length + 1)
    (1732584193, 4023233417, 2562383102, 271733878) padded
  toBytesLE 4 r.1 ++ toBytesLE 4 r.2.1 ++ toBytesLE 4 r.2.2.1 ++ toBytesLE 4 r.2.2.2

/-- The little-endian number a byte list denotes; base 256. -/
def natOfBytes : List Nat → Nat
  | [] => 0
  | b :: rest => b + 256 * natOfBytes rest

/-- Lowercase hex digit for a value below 16. -/
def hexDigit (n : Nat) : Char :=
  if n < 10 then Char.ofNat (48 + n) else Char.ofNat (87 + n)

/-- Two lowercase hex digits of one byte. -/
def byteHex (b : Nat) : String := String.mk [hexDigit (b / 16), hexDigit (b % 16)]

/-- `hexdigest()`: the 32-character lowercase hex form of the MD5 digest. -/
def md5Hex (bytes : List Nat) : String := String.join (md5Digest bytes |>.map byteHex)

/-- UTF-8 encoding of one character as bytes. -/
def utf8Char (c : Char) : List Nat :=
  let n := c.toNat
  if n < 128 then [n]
  else if n < 2048 then [192 + n / 64, 128 + n % 64]
  else if n < 65536 then [224 + n / 4096, 128 + (n / 64) % 64, 128 + n % 64]
  else [240 + n / 262144, 128 + (n / 4096) % 64, 128 + (n / 64) % 64, 128 + n % 64]

/-- `s.encode("utf-8")` as a byte list. -/
def strBytes (s : String) : List Nat := s.data.flatMap utf8Char

/-- `DocumentProcessor._generate_doc_id`
(`document_processor.py:269`): the MD5 hex digest of the UTF-8 encoding
of the argument string. -/
def generate_doc_id (content : String) : String := md5Hex (strBytes content)

/-!
`DocumentProcessor` (`document_processor.py`). The filesystem is an
explicit parameter `fs : String → Option FileInfo`: `none` means the path
does not exist. `pdf` and `docx` record whether the optional PyPDF2 /
python-docx capabilities are available.
-/

/-- What the filesystem knows about an existing file: its text and the
`stat` fields read by `process_file`. -/
structure FileInfo where
  content : String
  size : Nat
  ctime : Int
  mtime : Int
  deriving DecidableEq, Repr

/-- `Path(p).name`: the last nonempty path component. -/
def fileName (p : String) : String :=
  ((splitOnStr "/" p).filter (fun s => s ≠ "")).getLastD ""

/-- Index of the last occurrence of `c`, counting from `i`. -/
def lastIdxOfAux (c : Char) : List Char → Nat → Option Nat
  | [], _ => none
  | x :: xs, i =>
      match lastIdxOfAux c xs (i + 1) with
      | some j => some j
      | none => if x = c then some i else none

/-- Index of the last occurrence of `c` in `s`. -/
def lastIdxOf (c : Char) (s : String) : Option Nat := lastIdxOfAux c s.data 0

/-- `Path(p).suffix`: from the last dot of the file name, unless the dot
is the first or the last character of the name. -/
def pathSuffix (p : String) : String :=
  let n := fileName p
  match lastIdxOf '.' n with
  | none => ""
  | some i =>
      if 0 < i ∧ i + 1 < n.length then String.mk (n.data.drop i) else ""

/-- The registered extension set of `DocumentProcessor.__init__`
(`document_processor.py:44`): text-like formats always, `.pdf` / `.docx`
only when the optional capability is available. -/
def supportedExts (pdf docx : Bool) : List String :=
  [".txt", ".md", ".py", ".js", ".json", ".yaml", ".yml", ".xml", ".html",
   ".css", ".sql"]
    ++ (if pdf then [".pdf"] else []) ++ (if docx then [".docx"] else [])

/-- `DocumentProcessor.is_supported` (`document_processor.py:66`). -/
def is_supported (pdf docx : Bool) (p : String) : Bool :=
  (supportedExts pdf docx).contains (lowerStr (pathSuffix p))

/-- Modelled from the spec: the format-specific loaders
(`TextLoader`, `UnstructuredMarkdownLoader`, `PyPDFLoader`,
`Docx2txtLoader`) are third-party langchain code, specified as loading
"raw bytes/text from a file into normalized Document records"; the model
returns the file's text as one Document carrying the loader's `source`
metadata field. -/
def loadFile (path : String) (fi : FileInfo) : List Doc :=
  [{ content := fi.content, metadata := [("source", .str path)] }]

/-- `DocumentProcessor.process_file` (`document_processor.py:88`):
empty result when the file does not exist or its extension is
unsupported; otherwise stamps every loaded Document with combined
metadata whose `doc_id` is the MD5 of the path string. -/
def process_file (pdf docx : Bool) (fs : String → Option FileInfo)
    (path : String) (metadata : Option Meta) : List Doc :=
  match fs path with
  | none => []
  | some fi =>
      if is_supported pdf docx path then
        let doc_metadata : Meta :=
          [("source", .str path), ("filename", .str (fileName path)),
           ("file_extension", .str (pathSuffix path)),
           ("doc_id", .str (generate_doc_id path)),
           ("file_size", .nat fi.size), ("created_at", .int fi.ctime),
           ("modified_at", .int fi.mtime)]
        let dm := match metadata with
          | some m => dmerge doc_metadata m
          | none => doc_metadata
        (loadFile path fi).map (fun d => { d with metadata := dmerge d.metadata dm })
      else []

/-- `DocumentProcessor.process_text` (`document_processor.py:205`). -/
def process_text (text : String) (metadata : Option Meta) : Doc :=
  let doc_metadata : Meta :=
    [("source", .str "text_input"), ("doc_id", .str (generate_doc_id text)),
     ("content_length", .nat text.length)]
  { content := text,
    metadata :=
      match metadata with
      | some m => dmerge doc_metadata m
      | none => doc_metadata }

/-- `DocumentProcessor.validate_documents` (`document_processor.py:315`):
drop whitespace-only documents, add a content-hash `doc_id` where missing. -/
def validate_documents : List Doc → List Doc
  | [] => []
  | d :: rest =>
      if trimStr d.content = "" then validate_documents rest
      else
        (match dget d.metadata "doc_id" with
          | some _ => d
          | none =>
              let did := MVal.str (generate_doc_id d.content)
              { d with metadata := dset d.metadata "doc_id" did })
          :: validate_documents rest

/-- `DocumentProcessor.process_directory` (`document_processor.py:142`).
Directory enumeration (`rglob` / `glob`) and glob pattern matching are
filesystem API calls, supplied as the parameters `dirList` (listed files,
`none` when the directory does not exist) and `matchp`. -/
def process_directory (pdf docx : Bool) (fs : String → Option FileInfo)
    (dirList : String → Bool → Option (List String))
    (matchp : String → String → Bool)
    (dirPath : String) (recursive : Bool)
    (file_patterns exclude_patterns : Option (List String)) : List Doc :=
  match dirList dirPath recursive with
  | none => []
  | some files =>
      let files1 := match file_patterns with
        | some pats => files.filter (fun f => pats.any (fun p => matchp p f))
        | none => files
      let files2 := match exclude_patterns with
        | some pats => files1.filter (fun f => !pats.any (fun p => matchp p f))
        | none => files1
      (files2.filter (fun f => is_supported pdf docx f)).flatMap
        (fun f => process_file pdf docx fs f none)

/-!
The chunker. `vector_store.py:64` configures a langchain
`RecursiveCharacterTextSplitter` with `chunk_size=1000`,
`chunk_overlap=200` and separators `["\n\n", "\n", " ", ""]`; the
splitter itself is third-party code, so it is modelled from the spec.
-/

/-- Modelled from the spec: the last-resort hard character cut of the
splitter (the empty-string separator), emitting windows of at most
`cs` characters whose starts advance by `stride = chunkSize -
chunkOverlap`, so that consecutive windows overlap. `fuel` bounds the
recursion; `l.length` is always enough. -/
def hardCutAux (cs stride : Nat) : Nat → List Char → List (List Char)
  | _, [] => []
  | 0, l => [l]
  | fuel + 1, l =>
      if l.length ≤ cs then [l]
      else l.take cs :: hardCutAux cs stride fuel (l.drop stride)

/-- Modelled from the spec (§4.2 of the specification):
`RecursiveCharacterTextSplitter.split_text` is third-party langchain
code; per the spec it returns the whole text as one piece when it fits in
`chunkSize`, otherwise splits on the coarsest separator and recurses with
the finer separators on every piece, hard-cutting with overlap when the
empty-string separator is reached. -/
def splitRec (cs stride : Nat) : List String → String → List String
  | seps, t =>
    if t.length ≤ cs then [t]
    else
      match seps with
      | [] => (hardCutAux cs stride t.data.length t.data).map String.mk
      | sep :: rest =>
          if sep = "" then (hardCutAux cs stride t.data.length t.data).map String.mk
          else (splitOnStr sep t).flatMap (fun piece => splitRec cs stride rest piece)

/-- `self.text_splitter.split_text` with the configuration of
`vector_store.py:64`: `chunk_size=1000`, `chunk_overlap=200` (stride
800), separators `["\n\n", "\n", " ", ""]`. -/
def split_text (t : String) : List String :=
  splitRec 1000 800 ["\n\n", "\n", " ", ""] t

/-!
`VectorStore` (`vector_store.py`). The two backends are a closed variant
type; the stored collection is a list of entries (backend-assigned id
paired with the chunk). Backend-assigned identifiers and the
`uuid.uuid4().hex` fallbacks are environment-supplied streams of strings.
The embedding model is external: a query embedding is an
`Except String (Doc → Nat)` — a distance ranking over chunks on success,
or the exception the embedding call raised.
-/

/-- The backend kind: `"chroma"` (metadata-filterable) or `"faiss"`
(index-only). -/
inductive StoreType where
  | chroma
  | faiss
  deriving DecidableEq, Repr

/-- The runtime string of the backend kind. -/
def StoreType.render : StoreType → String
  | .chroma => "chroma"
  | .faiss => "faiss"

/-- A persisted unit: the backend-assigned chunk identifier and the chunk. -/
abbrev Entry := String × Doc

/-- The state of a `VectorStore` instance. -/
structure VSState where
  store_type : StoreType
  collection_name : String
  persist_directory : String
  embedding_model : String
  entries : List Entry
  deriving DecidableEq, Repr

/-- The dummy document of `VectorStore._init_faiss`
(`vector_store.py:150`). -/
def dummyDoc : Doc :=
  { content := "Dummy document for initialization",
    metadata := [("source", .str "initialization"), ("doc_id", .str "dummy")] }

/-- `VectorStore._init_faiss` (`vector_store.py:130`): load the persisted
index when one loads successfully, otherwise create a new index holding
only the dummy document. `freshId` is the id FAISS assigns to the dummy
document. -/
def init_faiss (freshId : String) (persisted : Option (List Entry)) : List Entry :=
  match persisted with
  | some es => es
  | none => [(freshId, dummyDoc)]

/-- Construction of a `VectorStore` (`vector_store.py:71`): the chroma
backend opens the persisted collection (empty when none), the faiss
backend loads the persisted index or seeds a dummy document. -/
def mkVectorStore (freshId : String) (st : StoreType)
    (persisted : Option (List Entry))
    (collection_name persist_directory embedding_model : String) : VSState :=
  { store_type := st,
    collection_name := collection_name,
    persist_directory := persist_directory,
    embedding_model := embedding_model,
    entries :=
      match st with
      | .chroma => persisted.getD []
      | .faiss => init_faiss freshId persisted }

/-- The chunk-level metadata update of `VectorStore.add_documents`
(`vector_store.py:176`): each chunk of a parent document gains
`chunk_id`, `chunk_index`, `total_chunks` and `parent_doc_id`.
`doc.metadata.get('doc_id', uuid.uuid4().hex)` is evaluated separately
for `chunk_id` and for `parent_doc_id`, so when `doc_id` is absent the
two fallbacks are distinct fresh uuid values, supplied by the stream
`fresh`. -/
def chunkDoc (fresh : Nat → String) (d : Doc) : List Doc :=
  let chunks := split_text d.content
  let n := chunks.length
  (List.range n).map fun i =>
    let cid := match dget d.metadata "doc_id" with
      | some v => v.render
      | none => fresh (2 * i)
    let pid := match dget d.metadata "doc_id" with
      | some v => v
      | none => .str (fresh (2 * i + 1))
    { content := chunks.getD i "",
      metadata := dmerge d.metadata
        [("chunk_id", .str (cid ++ "_" ++ toString i)),
         ("chunk_index", .nat i),
         ("total_chunks", .nat n),
         ("parent_doc_id", pid)] }

/-- `VectorStore.add_documents` (`vector_store.py:157`): empty input is a
no-op returning `[]`; otherwise every document is split into chunks, the
chunks receive their sequence metadata and are appended to the backend,
and the backend-assigned ids (the stream `idGen`) are returned. -/
def add_documents (fresh idGen : Nat → String) (s : VSState)
    (documents : List Doc) : List String × VSState :=
  match documents with
  | [] => ([], s)
  | _ =>
      let chunked := documents.flatMap (chunkDoc fresh)
      let ids := (List.range chunked.length).map idGen
      (ids, { s with entries := s.entries ++ ids.zip chunked })

/-- Insertion into a list sorted by `le`. -/
def insertBy {α : Type} (le : α → α → Bool) (x : α) : List α → List α
  | [] => [x]
  | y :: ys => if le x y then x :: y :: ys else y :: insertBy le x ys

/-- Insertion sort by `le`. -/
def sortBy {α : Type} (le : α → α → Bool) : List α → List α
  | [] => []
  | x :: xs => insertBy le x (sortBy le xs)

/-- Modelled from the spec: the backend-native nearest-neighbor search of
Chroma / FAISS (third-party code) "returns up to `k` nearest chunks by
vector distance" — the `k` stored entries of least distance under the
query's distance ranking. -/
def backendTopK (dist : Doc → Nat) (k : Nat) (entries : List Entry) : List Entry :=
  (sortBy (fun a b => dist a.2 ≤ dist b.2) entries).take k

/-- Exact-match AND-semantics over all filter keys
(`vector_store.py:236`). -/
def matchesFilter (f : Meta) (d : Doc) : Bool :=
  f.all fun kv => dget d.metadata kv.1 = some kv.2

/-- `VectorStore.similarity_search` (`vector_store.py:200`): the whole
body runs in a `try` whose `except` returns `[]`. `embed` is the
embedding call (an exception there is caught); `rawSearch` is the
backend's native search call (an exception there is caught too). On the
chroma backend a filter is pushed down natively; on the faiss backend the
unfiltered top-k is post-filtered. -/
def similarity_search
    (embed : Except String (Doc → Nat))
    (rawSearch : (Doc → Nat) → Nat → List Entry → Except String (List Entry))
    (s : VSState) (k : Nat) (filter_metadata : Option Meta) : List Doc :=
  match embed with
  | .error _ => []
  | .ok dist =>
      match s.store_type with
      | .chroma =>
          let call := match filter_metadata with
            | some f => rawSearch dist k (s.entries.filter fun e => matchesFilter f e.2)
            | none => rawSearch dist k s.entries
          match call with
          | .error _ => []
          | .ok res => res.map (·.2)
      | .faiss =>
          match rawSearch dist k s.entries with
          | .error _ => []
          | .ok res =>
              let results := res.map (·.2)
              match filter_metadata with
              | some f => results.filter (matchesFilter f)
              | none => results

/-- `VectorStore.similarity_search_with_score` (`vector_store.py:251`):
same shape as `similarity_search`, each result paired with the
backend-native score. -/
def similarity_search_with_score
    (embed : Except String (Doc → Nat))
    (rawSearch : (Doc → Nat) → Nat → List Entry → Except String (List (Entry × Nat)))
    (s : VSState) (k : Nat) (filter_metadata : Option Meta) : List (Doc × Nat) :=
  match embed with
  | .error _ => []
  | .ok dist =>
      match s.store_type with
      | .chroma =>
          let call := match filter_metadata with
            | some f => rawSearch dist k (s.entries.filter fun e => matchesFilter f e.2)
            | none => rawSearch dist k s.entries
          match call with
          | .error _ => []
          | .ok res => res.map fun p => (p.1.2, p.2)
      | .faiss =>
          match rawSearch dist k s.entries with
          | .error _ => []
          | .ok res =>
              let results := res.map fun p => (p.1.2, p.2)
              match filter_metadata with
              | some f => results.filter fun p => matchesFilter f p.1
              | none => results

/-- The honest instantiation of `rawSearch`: the backend search succeeds
and returns the nearest `k` entries. -/
def nativeSearch (dist : Doc → Nat) (k : Nat) (entries : List Entry) :
    Except String (List Entry) :=
  .ok (backendTopK dist k entries)

/-- `VectorStore.delete_documents` (`vector_store.py:301`): chroma
deletes the given ids and reports `True`; faiss only logs a warning and
reports `False`. -/
def delete_documents (s : VSState) (doc_ids : List String) : Bool × VSState :=
  match s.store_type with
  | .chroma =>
      (true, { s with entries := s.entries.filter fun e => !doc_ids.contains e.1 })
  | .faiss => (false, s)

/-- The dictionary built by `VectorStore.get_collection_info`
(`vector_store.py:325`); `document_count` is `collection.count()` on
chroma and `index.ntotal` on faiss — the number of persisted entries in
either case. -/
structure CollectionInfo where
  store_type : String
  collection_name : String
  persist_directory : String
  embedding_model : String
  document_count : Nat
  deriving DecidableEq, Repr

/-- `VectorStore.get_collection_info` (`vector_store.py:325`). -/
def get_collection_info (s : VSState) : CollectionInfo :=
  { store_type := s.store_type.render,
    collection_name := s.collection_name,
    persist_directory := s.persist_directory,
    embedding_model := s.embedding_model,
    document_count := s.entries.length }

/-- `VectorStore.clear_collection` (`vector_store.py:358`): chroma
deletes and recreates the collection (empty); faiss removes the
persisted index files and re-runs `_init_faiss`, which then finds no
loadable index and seeds the dummy document. -/
def clear_collection (freshId : String) (s : VSState) : Bool × VSState :=
  match s.store_type with
  | .chroma => (true, { s with entries := [] })
  | .faiss => (true, { s with entries := init_faiss freshId none })

/-!
`RAGRetrievalTool` and `RAGManagementTool` (`retrieval_tool.py`).
-/

/-- Python `"\n".join`. -/
def joinLines : List String → String
  | [] => ""
  | [x] => x
  | x :: xs => x ++ "\n" ++ joinLines xs

/-- The content preview of `_format_results` (`retrieval_tool.py:240`):
strip the chunk content, truncate to 300 characters with an ellipsis
marker when the stripped content is longer than 300. -/
def contentPreview (c : String) : String :=
  let t := trimStr c
  if t.length > 300 then takeStr 300 t ++ "..." else t

/-- The optional metadata lines of a result block
(`retrieval_tool.py:231`). -/
def metaLines (m : Meta) : List String :=
  (match dget m "source" with
    | some v => ["Source: " ++ v.render]
    | none => [])
  ++ (match dget m "filename" with
    | some v => ["File: " ++ v.render]
    | none => [])
  ++ (match dget m "chunk_index" with
    | some v =>
        ["Chunk: " ++ v.render ++ "/" ++
          (match dget m "total_chunks" with
            | some w => w.render
            | none => "?")]
    | none => [])

/-- One result block of `_format_results`, for 1-based index `i`. -/
def docBlock (i : Nat) (d : Doc) : List String :=
  ("--- Document " ++ toString i ++ " ---") :: metaLines d.metadata
    ++ ["Content: " ++ contentPreview d.content, ""]

/-- `RAGRetrievalTool._format_results` (`retrieval_tool.py:211`). -/
def format_results (results : List Doc) (query : String) : String :=
  match results with
  | [] => "No documents found for query: '" ++ query ++ "'"
  | _ =>
      let header := "Found " ++ toString results.length ++
        " relevant documents for query: '" ++ query ++ "'\n"
      joinLines (header :: (results.enumFrom 1).flatMap fun p => docBlock p.1 p.2)

/-- One scored result block of `_format_scored_results`; `showScore`
renders the backend float score with 4 decimal places (float formatting
is an environment operation). -/
def scoredBlock (showScore : Nat → String) (i : Nat) (p : Doc × Nat) : List String :=
  ("--- Document " ++ toString i ++ " (Score: " ++ showScore p.2 ++ ") ---")
    :: metaLines p.1.metadata
    ++ ["Content: " ++ contentPreview p.1.content, ""]

/-- `RAGRetrievalTool._format_scored_results` (`retrieval_tool.py:249`). -/
def format_scored_results (showScore : Nat → String) (results : List (Doc × Nat))
    (query : String) : String :=
  match results with
  | [] => "No documents found for query: '" ++ query ++ "'"
  | _ =>
      let header := "Found " ++ toString results.length ++
        " relevant documents for query: '" ++ query ++ "' (with relevance scores)\n"
      joinLines (header :: (results.enumFrom 1).flatMap fun p => scoredBlock showScore p.1 p.2)

/-- `RAGRetrievalTool._retrieve_documents_structured`
(`retrieval_tool.py:78`): search, then render. -/
def retrieve_documents_structured
    (embed : Except String (Doc → Nat))
    (rawSearch : (Doc → Nat) → Nat → List Entry → Except String (List Entry))
    (rawSearchScored : (Doc → Nat) → Nat → List Entry → Except String (List (Entry × Nat)))
    (showScore : Nat → String) (s : VSState) (query : String) (k : Nat)
    (with_scores : Bool) (filter_metadata : Option Meta) : String :=
  if with_scores then
    format_scored_results showScore
      (similarity_search_with_score embed rawSearchScored s k filter_metadata) query
  else
    format_results (similarity_search embed rawSearch s k filter_metadata) query

/-- The environment of the ingestion paths: optional loader
capabilities, the filesystem, directory enumeration, glob matching, and
the uuid / backend-id streams. -/
structure Env where
  pdf : Bool
  docx : Bool
  fs : String → Option FileInfo
  dirList : String → Bool → Option (List String)
  matchp : String → String → Bool
  fresh : Nat → String
  idGen : Nat → String

/-- `RAGRetrievalTool.add_documents_from_files` (`retrieval_tool.py:287`). -/
def add_documents_from_files (env : Env) (s : VSState)
    (file_paths : List String) : String × VSState :=
  let all_documents := file_paths.flatMap fun p =>
    process_file env.pdf env.docx env.fs p none
  match all_documents with
  | [] => ("No valid documents found in the provided files.", s)
  | _ =>
      let valid_docs := validate_documents all_documents
      let r := add_documents env.fresh env.idGen s valid_docs
      ("Successfully added " ++ toString valid_docs.length ++ " documents from " ++
        toString file_paths.length ++ " files to knowledge base.", r.2)

/-- `RAGRetrievalTool.add_documents_from_directory`
(`retrieval_tool.py:320`). -/
def add_documents_from_directory (env : Env) (s : VSState)
    (directory_path : String) (recursive : Bool)
    (file_patterns : Option (List String)) : String × VSState :=
  let documents := process_directory env.pdf env.docx env.fs env.dirList env.matchp
    directory_path recursive file_patterns none
  match documents with
  | [] => ("No valid documents found in directory '" ++ directory_path ++ "'.", s)
  | _ =>
      let valid_docs := validate_documents documents
      let r := add_documents env.fresh env.idGen s valid_docs
      ("Successfully added " ++ toString valid_docs.length ++
        " documents from directory '" ++ directory_path ++ "' to knowledge base.", r.2)

/-- `RAGRetrievalTool.add_text_document` (`retrieval_tool.py:360`). -/
def add_text_document (env : Env) (s : VSState) (text : String)
    (metadata : Option Meta) : String × VSState :=
  let document := process_text text metadata
  let r := add_documents env.fresh env.idGen s [document]
  ("Successfully added text document to knowledge base (ID: " ++
    (match dget document.metadata "doc_id" with
      | some v => v.render
      | none => "unknown") ++ ").", r.2)

/-- `RAGRetrievalTool.get_collection_info` (`retrieval_tool.py:382`):
the info dictionary rendered line by line, keys title-cased. -/
def format_collection_info (s : VSState) : String :=
  joinLines
    ["Vector Store Information:",
     "- Store Type: " ++ s.store_type.render,
     "- Collection Name: " ++ s.collection_name,
     "- Persist Directory: " ++ s.persist_directory,
     "- Embedding Model: " ++ s.embedding_model,
     "- Document Count: " ++ toString s.entries.length]

/-- `RAGRetrievalTool.clear_knowledge_base` (`retrieval_tool.py:403`). -/
def clear_knowledge_base (env : Env) (s : VSState) : String × VSState :=
  let r := clear_collection (env.fresh 0) s
  if r.1 then ("Successfully cleared all documents from knowledge base.", r.2)
  else ("Failed to clear knowledge base.", r.2)

/-- `RAGManagementTool._manage_rag_structured` (`retrieval_tool.py:462`):
dispatch on the lowered, stripped `action`; missing required parameters
(`None` or the falsy empty string) and unknown actions yield descriptive
error strings with the store untouched. -/
def manage_rag_structured (env : Env) (s : VSState) (action : String)
    (path content title : Option String) (recursive : Bool)
    (patterns : Option (List String)) : String × VSState :=
  let a := trimStr (lowerStr action)
  if a = "info" then (format_collection_info s, s)
  else if a = "clear" then clear_knowledge_base env s
  else if a = "add_file" then
    match path with
    | none => ("Error: path parameter required for add_file action", s)
    | some p =>
        if p = "" then ("Error: path parameter required for add_file action", s)
        else add_documents_from_files env s [p]
  else if a = "add_files" then
    match path with
    | none => ("Error: path parameter required for add_files action", s)
    | some p =>
        if p = "" then ("Error: path parameter required for add_files action", s)
        else add_documents_from_files env s ((splitOnStr "," p).map trimStr)
  else if a = "add_directory" then
    match path with
    | none => ("Error: path parameter required for add_directory action", s)
    | some p =>
        if p = "" then ("Error: path parameter required for add_directory action", s)
        else add_documents_from_directory env s p recursive patterns
  else if a = "add_text" then
    match content with
    | none => ("Error: content parameter required for add_text action", s)
    | some c =>
        if c = "" then ("Error: content parameter required for add_text action", s)
        else
          let metadata : Meta :=
            match title with
            | some t => if t = "" then [] else [("title", .str t)]
            | none => []
          add_text_document env s c (some metadata)
  else
    ("Unknown action: " ++ a ++
      ". Available actions: add_file, add_files, add_directory, add_text, info, clear", s)

/-!
Helper lemmas.
-/

theorem mem_insertBy {α : Type} (le : α → α → Bool) (x a : α) (l : List α) :
    a ∈ insertBy le x l ↔ a = x ∨ a ∈ l := by
  induction l with
  | nil => simp [insertBy]
  | cons y ys ih =>
      by_cases h : le x y = true
      · simp [insertBy, h]
      · simp only [insertBy, h]
        simp [ih]
        tauto

theorem mem_sortBy {α : Type} (le : α → α → Bool) (a : α) (l : List α) :
    a ∈ sortBy le l ↔ a ∈ l := by
  induction l with
  | nil => simp [sortBy]
  | cons x xs ih => simp [sortBy, mem_insertBy, ih]

theorem mem_backendTopK (dist : Doc → Nat) (k : Nat) (entries : List Entry)
    (e : Entry) (h : e ∈ backendTopK dist k entries) : e ∈ entries := by
  have := List.mem_of_mem_take h
  exact (mem_sortBy _ e entries).1 this

theorem joinLines_ne_empty (x : String) (xs : List String) (hx : x.length ≠ 0) :
    joinLines (x :: xs) ≠ "" := by
  intro h
  have hl : (joinLines (x :: xs)).length = 0 := by rw [h]; rfl
  cases xs with
  | nil => simp [joinLines] at hl; omega
  | cons y ys =>
      simp only [joinLines, String.length_append] at hl
      omega

theorem dget_chunk_update (m : Meta) (cid : String) (pid : MVal) (i n : Nat) :
    dget (dmerge m
      [("chunk_id", .str cid), ("chunk_index", .nat i),
       ("total_chunks", .nat n), ("parent_doc_id", pid)]) "chunk_id" =
        some (.str cid) ∧
    dget (dmerge m
      [("chunk_id", .str cid), ("chunk_index", .nat i),
       ("total_chunks", .nat n), ("parent_doc_id", pid)]) "chunk_index" =
        some (.nat i) ∧
    dget (dmerge m
      [("chunk_id", .str cid), ("chunk_index", .nat i),
       ("total_chunks", .nat n), ("parent_doc_id", pid)]) "total_chunks" =
        some (.nat n) ∧
    dget (dmerge m
      [("chunk_id", .str cid), ("chunk_index", .nat i),
       ("total_chunks", .nat n), ("parent_doc_id", pid)]) "parent_doc_id" =
        some pid ∧
    ∀ key, key ≠ "chunk_id" → key ≠ "chunk_index" → key ≠ "total_chunks" →
      key ≠ "parent_doc_id" →
      dget (dmerge m
        [("chunk_id", .str cid), ("chunk_index", .nat i),
         ("total_chunks", .nat n), ("parent_doc_id", pid)]) key = dget m key := by
  simp only [dmerge, List.foldl]
  refine ⟨?_, ?_, ?_, ?_, ?_⟩
  · rw [dget_dset_other _ _ _ _ (by decide), dget_dset_other _ _ _ _ (by decide),
      dget_dset_other _ _ _ _ (by decide), dget_dset_same]
  · rw [dget_dset_other _ _ _ _ (by decide), dget_dset_other _ _ _ _ (by decide),
      dget_dset_same]
  · rw [dget_dset_other _ _ _ _ (by decide), dget_dset_same]
  · rw [dget_dset_same]
  · intro key h1 h2 h3 h4
    rw [dget_dset_other _ _ _ _ (Ne.symm h4), dget_dset_other _ _ _ _ (Ne.symm h3),
      dget_dset_other _ _ _ _ (Ne.symm h2), dget_dset_other _ _ _ _ (Ne.symm h1)]

/-!
The claims.
-/

/-- C5: for every state of the Vector Store, `add_documents` applied to
the empty list returns the empty list and leaves the state — hence
`document_count` and the persisted collection — unchanged. -/
theorem add_documents_empty_noop (fresh idGen : Nat → String) (s : VSState) :
    add_documents fresh idGen s [] = ([], s) ∧
    (add_documents fresh idGen s []).2.entries = s.entries ∧
    (get_collection_info (add_documents fresh idGen s []).2).document_count =
      (get_collection_info s).document_count :=
  ⟨rfl, rfl, rfl⟩

/-- C8: `process_file` returns the empty list (and cannot raise, being a
total function into `List Doc`) when the file does not exist or when its
extension is not in the supported-extension mapping. -/
theorem process_file_soft_fail (pdf docx : Bool) (fs : String → Option FileInfo)
    (path : String) (metadata : Option Meta) :
    (fs path = none → process_file pdf docx fs path metadata = []) ∧
    (is_supported pdf docx path = false →
      process_file pdf docx fs path metadata = []) := by
  constructor
  · intro h
    simp [process_file, h]
  · intro h
    cases hfs : fs path with
    | none => simp [process_file, hfs]
    | some fi => simp [process_file, hfs, h]

/-- Witness for C8 at concrete inputs: a one-file filesystem, a missing
path and an unsupported extension. -/
theorem process_file_soft_fail_witness :
    ((fun p => if p = "a.txt" then some (⟨"hello", 5, 0, 0⟩ : FileInfo) else none)
        ("missing.txt") = (none : Option FileInfo)) ∧
    process_file false false
      (fun p => if p = "a.txt" then some ⟨"hello", 5, 0, 0⟩ else none)
      "missing.txt" none = [] ∧
    is_supported false false "evil.exe" = false ∧
    process_file false false
      (fun p => if p = "evil.exe" then some ⟨"bin", 3, 0, 0⟩ else none)
      "evil.exe" none = [] := by
  refine ⟨by decide, ?_, by decide, ?_⟩
  · exact (process_file_soft_fail false false _ "missing.txt" none).1 (by decide)
  · exact (process_file_soft_fail false false _ "evil.exe" none).2 (by decide)

/-- C4: when the embedding computation or the backend search raises
inside `similarity_search` or `similarity_search_with_score`, the error
is caught and the operation returns the empty list; both operations are
total functions (they never propagate an exception), and the error
outcome coincides with the genuine zero-match outcome of a search over
an empty collection, so the two are indistinguishable to the caller. -/
theorem similarity_search_error_empty (s : VSState) (k : Nat)
    (filter_metadata : Option Meta) (emsg : String) (dist : Doc → Nat)
    (rawSearch : (Doc → Nat) → Nat → List Entry → Except String (List Entry))
    (rawScored : (Doc → Nat) → Nat → List Entry → Except String (List (Entry × Nat))) :
    similarity_search (.error emsg) rawSearch s k filter_metadata = [] ∧
    similarity_search (.ok dist) (fun _ _ _ => .error emsg) s k filter_metadata = [] ∧
    similarity_search_with_score (.error emsg) rawScored s k filter_metadata = [] ∧
    similarity_search_with_score (.ok dist) (fun _ _ _ => .error emsg) s k
      filter_metadata = [] ∧
    similarity_search (.error emsg) rawSearch s k filter_metadata =
      similarity_search (.ok dist) nativeSearch { s with entries := [] } k
        filter_metadata := by
  refine ⟨rfl, ?_, rfl, ?_, ?_⟩
  · cases hst : s.store_type <;> cases filter_metadata <;>
      simp [similarity_search, hst]
  · cases hst : s.store_type <;> cases filter_metadata <;>
      simp [similarity_search_with_score, hst]
  · cases hst : s.store_type <;> cases filter_metadata <;>
      simp [similarity_search, hst, nativeSearch, backendTopK, sortBy]

/-- C2: constructing the FAISS-backend store with no loadable persisted
index, and clearing any FAISS-backend store, leave a collection that is
not empty: it holds exactly one synthetic entry whose chunk has content
"Dummy document for initialization" and metadata `doc_id` `"dummy"`, so
`get_collection_info` reports `document_count` 1 (not 0) and an
unfiltered `similarity_search` with `k ≥ 1` returns this dummy chunk. -/
theorem faiss_dummy_after_init_and_clear (fid : String)
    (cn pd em : String) (s : VSState) (hst : s.store_type = .faiss)
    (k : Nat) (hk : 1 ≤ k) (dist : Doc → Nat) :
    (mkVectorStore fid .faiss none cn pd em).entries = [(fid, dummyDoc)] ∧
    (get_collection_info (mkVectorStore fid .faiss none cn pd em)).document_count = 1 ∧
    similarity_search (.ok dist) nativeSearch (mkVectorStore fid .faiss none cn pd em)
      k none = [dummyDoc] ∧
    (clear_collection fid s).2.entries = [(fid, dummyDoc)] ∧
    (get_collection_info (clear_collection fid s).2).document_count = 1 ∧
    similarity_search (.ok dist) nativeSearch (clear_collection fid s).2 k none =
      [dummyDoc] ∧
    dummyDoc.content = "Dummy document for initialization" ∧
    dget dummyDoc.metadata "doc_id" = some (.str "dummy") := by
  obtain ⟨k, rfl⟩ : ∃ k', k = k' + 1 := ⟨k - 1, by omega⟩
  have hclear : (clear_collection fid s).2 =
      { s with entries := [(fid, dummyDoc)] } := by
    simp [clear_collection, hst, init_faiss]
  refine ⟨rfl, rfl, ?_, ?_, ?_, ?_, rfl, rfl⟩
  · simp [similarity_search, mkVectorStore, init_faiss, nativeSearch, backendTopK,
      sortBy, insertBy]
  · rw [hclear]
  · rw [hclear]; rfl
  · rw [hclear]
    simp [similarity_search, hst, nativeSearch, backendTopK, sortBy, insertBy]

/-- Every chunk returned by an honest-backend `similarity_search` is the
chunk of some stored entry. -/
theorem mem_search_entries (dist : Doc → Nat) (k : Nat) (s : VSState)
    (fm : Option Meta) (d : Doc)
    (hd : d ∈ similarity_search (.ok dist) nativeSearch s k fm) :
    ∃ e ∈ s.entries, e.2 = d := by
  cases hst : s.store_type with
  | chroma =>
      cases fm with
      | none =>
          simp only [similarity_search, hst, nativeSearch] at hd
          obtain ⟨e, he, rfl⟩ := List.mem_map.1 hd
          exact ⟨e, mem_backendTopK _ _ _ _ he, rfl⟩
      | some f =>
          simp only [similarity_search, hst, nativeSearch] at hd
          obtain ⟨e, he, rfl⟩ := List.mem_map.1 hd
          exact ⟨e, List.mem_of_mem_filter (mem_backendTopK _ _ _ _ he), rfl⟩
  | faiss =>
      cases fm with
      | none =>
          simp only [similarity_search, hst, nativeSearch] at hd
          obtain ⟨e, he, rfl⟩ := List.mem_map.1 hd
          exact ⟨e, mem_backendTopK _ _ _ _ he, rfl⟩
      | some f =>
          simp only [similarity_search, hst, nativeSearch] at hd
          obtain ⟨e, he, rfl⟩ := List.mem_map.1 (List.mem_of_mem_filter hd)
          exact ⟨e, mem_backendTopK _ _ _ _ he, rfl⟩

/-- C3: `delete_documents` on the FAISS backend returns `false` and
leaves the state unchanged for every id list; on the Chroma backend it
returns `true` and every chunk a subsequent search returns comes from an
entry whose id was not among the deleted ids — the deleted chunks are
absent from search results. -/
theorem delete_documents_asymmetry (s : VSState) (doc_ids : List String)
    (k : Nat) (dist : Doc → Nat) (filter_metadata : Option Meta) :
    (s.store_type = .faiss → delete_documents s doc_ids = (false, s)) ∧
    (s.store_type = .chroma →
      (delete_documents s doc_ids).1 = true ∧
      ∀ d ∈ similarity_search (.ok dist) nativeSearch
          (delete_documents s doc_ids).2 k filter_metadata,
        ∃ e ∈ s.entries, e.2 = d ∧ e.1 ∉ doc_ids) := by
  constructor
  · intro hst
    obtain ⟨st, cn, pd, em, es⟩ := s
    cases hst
    rfl
  · intro hst
    refine ⟨by simp [delete_documents, hst], ?_⟩
    intro d hd
    obtain ⟨e, he, hed⟩ := mem_search_entries dist k _ filter_metadata d hd
    have hent : (delete_documents s doc_ids).2.entries =
        s.entries.filter (fun e => !doc_ids.contains e.1) := by
      simp [delete_documents, hst]
    rw [hent] at he
    obtain ⟨hmem, hpred⟩ := List.mem_filter.1 he
    refine ⟨e, hmem, hed, ?_⟩
    simpa using hpred

/-- Witness for C3: a concrete FAISS store, and a concrete two-entry
Chroma store from which one chunk id is deleted. -/
theorem delete_documents_asymmetry_witness :
    (delete_documents
      { store_type := .faiss, collection_name := "c", persist_directory := "p",
        embedding_model := "m",
        entries := [("i1", { content := "x", metadata := [] })] } ["i1"]) =
      (false,
      { store_type := .faiss, collection_name := "c", persist_directory := "p",
        embedding_model := "m",
        entries := [("i1", { content := "x", metadata := [] })] }) ∧
    (delete_documents
      { store_type := .chroma, collection_name := "c", persist_directory := "p",
        embedding_model := "m",
        entries := [("i1", { content := "x", metadata := [] }),
                    ("i2", { content := "y", metadata := [] })] } ["i1"]).1 = true ∧
    ∀ d ∈ similarity_search (.ok fun _ => 0) nativeSearch
        (delete_documents
          { store_type := .chroma, collection_name := "c", persist_directory := "p",
            embedding_model := "m",
            entries := [("i1", { content := "x", metadata := [] }),
                        ("i2", { content := "y", metadata := [] })] } ["i1"]).2 5 none,
      ∃ e ∈ [(("i1" : String), ({ content := "x", metadata := [] } : Doc)),
             ("i2", { content := "y", metadata := [] })],
        e.2 = d ∧ e.1 ∉ (["i1"] : List String) := by
  have h := delete_documents_asymmetry
    { store_type := .chroma, collection_name := "c", persist_directory := "p",
      embedding_model := "m",
      entries := [("i1", { content := "x", metadata := [] }),
                  ("i2", { content := "y", metadata := [] })] } ["i1"] 5
    (fun _ => 0) none
  have h2 := delete_documents_asymmetry
    { store_type := .faiss, collection_name := "c", persist_directory := "p",
      embedding_model := "m",
      entries := [("i1", { content := "x", metadata := [] })] } ["i1"] 5
    (fun _ => 0) none
  exact ⟨h2.1 rfl, (h.2 rfl).1, (h.2 rfl).2⟩

/-- C9: the structured management dispatch (a total function — it never
raises to its caller) returns a descriptive error string and leaves the
state (hence `document_count`) unchanged, for every unknown action, for a
missing (`None` or empty) `path` on `add_file` / `add_files` /
`add_directory`, and for a missing (`None` or empty, including `""`)
`content` on `add_text`. -/
theorem manage_rag_structured_errors (env : Env) (s : VSState) (action : String)
    (path content title : Option String) (recursive : Bool)
    (patterns : Option (List String)) :
    (trimStr (lowerStr action) ∉
        (["info", "clear", "add_file", "add_files", "add_directory",
          "add_text"] : List String) →
      manage_rag_structured env s action path content title recursive patterns =
        ("Unknown action: " ++ trimStr (lowerStr action) ++
          ". Available actions: add_file, add_files, add_directory, add_text, info, clear",
          s)) ∧
    (∀ act, act ∈ (["add_file", "add_files", "add_directory"] : List String) →
      trimStr (lowerStr action) = act → (path = none ∨ path = some "") →
      manage_rag_structured env s action path content title recursive patterns =
        ("Error: path parameter required for " ++ act ++ " action", s)) ∧
    (trimStr (lowerStr action) = "add_text" → (content = none ∨ content = some "") →
      manage_rag_structured env s action path content title recursive patterns =
        ("Error: content parameter required for add_text action", s)) := by
  refine ⟨?_, ?_, ?_⟩
  · intro h
    simp only [List.mem_cons, List.not_mem_nil, or_false] at h
    push_neg at h
    obtain ⟨h1, h2, h3, h4, h5, h6⟩ := h
    simp only [manage_rag_structured]
    rw [if_neg h1, if_neg h2, if_neg h3, if_neg h4, if_neg h5, if_neg h6]
  · intro act hact hae hpath
    simp only [List.mem_cons, List.not_mem_nil, or_false] at hact
    rcases hact with rfl | rfl | rfl <;>
      rcases hpath with rfl | rfl <;>
        simp [manage_rag_structured, hae]
  · intro hae hcontent
    rcases hcontent with rfl | rfl <;> simp [manage_rag_structured, hae]

/-- Witness for C9 at concrete inputs: the unknown action `"bogus"`,
`add_file` with no path, and `"Add_Text "` (lowered and stripped by the
dispatch) with the empty content string. -/
theorem manage_rag_structured_errors_witness :
    manage_rag_structured
      { pdf := false, docx := false, fs := fun _ => none,
        dirList := fun _ _ => none, matchp := fun _ _ => false,
        fresh := fun _ => "u", idGen := fun _ => "i" }
      { store_type := .faiss, collection_name := "c", persist_directory := "p",
        embedding_model := "m", entries := [] }
      "bogus" none none none true none =
      ("Unknown action: bogus. Available actions: add_file, add_files, add_directory, add_text, info, clear",
        { store_type := .faiss, collection_name := "c", persist_directory := "p",
          embedding_model := "m", entries := [] }) ∧
    manage_rag_structured
      { pdf := false, docx := false, fs := fun _ => none,
        dirList := fun _ _ => none, matchp := fun _ _ => false,
        fresh := fun _ => "u", idGen := fun _ => "i" }
      { store_type := .faiss, collection_name := "c", persist_directory := "p",
        embedding_model := "m", entries := [] }
      "add_file" none none none true none =
      ("Error: path parameter required for add_file action",
        { store_type := .faiss, collection_name := "c", persist_directory := "p",
          embedding_model := "m", entries := [] }) ∧
    manage_rag_structured
      { pdf := false, docx := false, fs := fun _ => none,
        dirList := fun _ _ => none, matchp := fun _ _ => false,
        fresh := fun _ => "u", idGen := fun _ => "i" }
      { store_type := .faiss, collection_name := "c", persist_directory := "p",
        embedding_model := "m", entries := [] }
      "Add_Text " none (some "") (some "Empty") true none =
      ("Error: content parameter required for add_text action",
        { store_type := .faiss, collection_name := "c", persist_directory := "p",
          embedding_model := "m", entries := [] }) := by
  refine ⟨?_, ?_, ?_⟩
  · exact (manage_rag_structured_errors _ _ "bogus" none none none true none).1
      (by decide)
  · exact (manage_rag_structured_errors _ _ "add_file" none none none true
      none).2.1 "add_file" (by decide) (by decide) (Or.inl rfl)
  · exact (manage_rag_structured_errors _ _ "Add_Text " none (some "")
      (some "Empty") true none).2.2 (by decide) (Or.inr rfl)

theorem split_text_short (t : String) (h : t.length ≤ 1000) :
    split_text t = [t] := by
  rw [split_text, splitRec]
  simp [h]

/-- C7: a Document whose content length is at most the configured
`chunk_size` of 1000 characters is chunked into exactly one chunk whose
content equals the original content, with `chunk_index` 0 and
`total_chunks` 1. -/
theorem short_document_single_chunk (fresh : Nat → String) (d : Doc)
    (h : d.content.length ≤ 1000) :
    split_text d.content = [d.content] ∧
    (chunkDoc fresh d).length = 1 ∧
    ∀ c ∈ chunkDoc fresh d,
      c.content = d.content ∧
      dget c.metadata "chunk_index" = some (.nat 0) ∧
      dget c.metadata "total_chunks" = some (.nat 1) := by
  have hs := split_text_short d.content h
  refine ⟨hs, by simp [chunkDoc, hs], ?_⟩
  intro c hc
  simp only [chunkDoc, hs, List.length_singleton,
    show List.range 1 = [0] from rfl, List.map_cons,
    List.map_nil, List.mem_singleton] at hc
  subst hc
  have hm := dget_chunk_update d.metadata
    ((match dget d.metadata "doc_id" with
      | some v => v.render
      | none => fresh 0) ++ "_" ++ toString 0)
    (match dget d.metadata "doc_id" with
      | some v => v
      | none => .str (fresh 1)) 0 1
  exact ⟨by simp, hm.2.1, hm.2.2.1⟩

/-- Witness for C7: a concrete short document. -/
theorem short_document_single_chunk_witness :
    ("hello world".length ≤ 1000) ∧
    split_text "hello world" = ["hello world"] ∧
    (chunkDoc (fun n => toString n)
      { content := "hello world", metadata := [("doc_id", .str "abc")] }).length = 1 := by
  have h := short_document_single_chunk (fun n => toString n)
    { content := "hello world", metadata := [("doc_id", .str "abc")] } (by decide)
  exact ⟨by decide, h.1, h.2.1⟩

/-- C6: every chunk produced from a Document carrying a `doc_id` by the
ingestion path of `add_documents` has metadata `chunk_id` equal to the
parent `doc_id` followed by `"_"` and the chunk sequence number (hence
begins with the parent id), a 0-based sequential `chunk_index` equal to
its position in left-to-right document order, `total_chunks` equal to the
number of chunks of that Document, `parent_doc_id` equal to the parent
`doc_id`, and inherits every other metadata key of the parent unchanged;
`add_documents` persists exactly these chunks. -/
theorem chunk_metadata_invariants (fresh idGen : Nat → String) (s : VSState)
    (documents : List Doc) (hne : documents ≠ [])
    (d : Doc) (did : MVal) (hdid : dget d.metadata "doc_id" = some did)
    (i : Nat) (hi : i < (chunkDoc fresh d).length) :
    (add_documents fresh idGen s documents).2.entries =
      s.entries ++
        ((List.range (documents.flatMap (chunkDoc fresh)).length).map idGen).zip
          (documents.flatMap (chunkDoc fresh)) ∧
    (chunkDoc fresh d).length = (split_text d.content).length ∧
    ((chunkDoc fresh d)[i]).content = (split_text d.content).getD i "" ∧
    dget ((chunkDoc fresh d)[i]).metadata "chunk_id" =
      some (.str (did.render ++ "_" ++ toString i)) ∧
    dget ((chunkDoc fresh d)[i]).metadata "chunk_index" = some (.nat i) ∧
    dget ((chunkDoc fresh d)[i]).metadata "total_chunks" =
      some (.nat (split_text d.content).length) ∧
    dget ((chunkDoc fresh d)[i]).metadata "parent_doc_id" = some did ∧
    (∀ key, key ≠ "chunk_id" → key ≠ "chunk_index" → key ≠ "total_chunks" →
      key ≠ "parent_doc_id" →
      dget ((chunkDoc fresh d)[i]).metadata key = dget d.metadata key) := by
  have hlen : (chunkDoc fresh d).length = (split_text d.content).length := by
    simp [chunkDoc]
  have hget : (chunkDoc fresh d)[i] =
      { content := (split_text d.content).getD i "",
        metadata := dmerge d.metadata
          [("chunk_id", .str (did.render ++ "_" ++ toString i)),
           ("chunk_index", .nat i),
           ("total_chunks", .nat (split_text d.content).length),
           ("parent_doc_id", did)] } := by
    have hi' : i < (List.range (split_text d.content).length).length := by
      simpa using hlen ▸ hi
    simp only [chunkDoc, List.getElem_map, List.getElem_range, hdid]
  have hm := dget_chunk_update d.metadata (did.render ++ "_" ++ toString i) did i
    (split_text d.content).length
  refine ⟨?_, hlen, ?_, ?_, ?_, ?_, ?_, ?_⟩
  · cases documents with
    | nil => exact absurd rfl hne
    | cons x xs => simp [add_documents]
  · rw [hget]
  · rw [hget]; exact hm.1
  · rw [hget]; exact hm.2.1
  · rw [hget]; exact hm.2.2.1
  · rw [hget]; exact hm.2.2.2.1
  · intro key h1 h2 h3 h4
    rw [hget]
    exact hm.2.2.2.2 key h1 h2 h3 h4

/-- Witness for C6: a concrete document with `doc_id` `"abc"`, chunk 0. -/
theorem chunk_metadata_invariants_witness :
    dget
      (({ content := "hello world", metadata := [("doc_id", .str "abc")] : Doc}) :
        Doc).metadata "doc_id" = some (.str "abc") ∧
    (0 : Nat) < (chunkDoc (fun n => toString n)
      { content := "hello world", metadata := [("doc_id", .str "abc")] }).length ∧
    dget ((chunkDoc (fun n => toString n)
      { content := "hello world", metadata := [("doc_id", .str "abc")] })[0]).metadata
      "chunk_id" = some (.str "abc_0") := by
  have h := chunk_metadata_invariants (fun n => toString n) (fun n => toString n)
    { store_type := .faiss, collection_name := "c", persist_directory := "p",
      embedding_model := "m", entries := [] }
    [{ content := "hello world", metadata := [("doc_id", .str "abc")] }]
    (by simp)
    { content := "hello world", metadata := [("doc_id", .str "abc")] }
    (.str "abc") (by decide) 0 (by decide)
  exact ⟨by decide, by decide, h.2.2.2.1⟩

theorem format_results_ne_empty (results : List Doc) (q : String) :
    format_results results q ≠ "" := by
  cases results with
  | nil =>
      intro h
      have h2 := congrArg String.length h
      simp only [format_results, String.length_append] at h2
      have h3 : (0 : Nat) < ("No documents found for query: '" : String).length := by
        decide
      have h4 : ("" : String).length = 0 := rfl
      have h5 : ("'" : String).length = 1 := rfl
      omega
  | cons x xs =>
      simp only [format_results]
      apply joinLines_ne_empty
      simp only [String.length_append]
      have h3 : (0 : Nat) < ("Found " : String).length := by decide
      omega

theorem format_scored_results_ne_empty (showScore : Nat → String)
    (results : List (Doc × Nat)) (q : String) :
    format_scored_results showScore results q ≠ "" := by
  cases results with
  | nil =>
      intro h
      have h2 := congrArg String.length h
      simp only [format_scored_results, String.length_append] at h2
      have h3 : (0 : Nat) < ("No documents found for query: '" : String).length := by
        decide
      have h4 : ("" : String).length = 0 := rfl
      have h5 : ("'" : String).length = 1 := rfl
      omega
  | cons x xs =>
      simp only [format_scored_results]
      apply joinLines_ne_empty
      simp only [String.length_append]
      have h3 : (0 : Nat) < ("Found " : String).length := by decide
      omega

set_option maxRecDepth 40000 in
/-- C10 counterexample: a chunk whose content is 300 `'a'`s followed by a
newline has length 301 > 300, yet the rendered preview is the 300-`'a'`
stripped content with no ellipsis marker — truncation is governed by the
stripped length, not by the chunk content length, so "truncated exactly
when the chunk content exceeds 300 characters" is false. -/
theorem preview_truncation_counterexample :
    (String.mk (List.replicate 300 'a') ++ "\n").length = 301 ∧
    300 < (String.mk (List.replicate 300 'a') ++ "\n").length ∧
    contentPreview (String.mk (List.replicate 300 'a') ++ "\n") =
      String.mk (List.replicate 300 'a') ∧
    (contentPreview (String.mk (List.replicate 300 'a') ++ "\n")).length = 300 ∧
    endsWithStr "..."
      (contentPreview (String.mk (List.replicate 300 'a') ++ "\n")) = false ∧
    format_results
      [{ content := String.mk (List.replicate 300 'a') ++ "\n", metadata := [] }]
      "q" =
      "Found 1 relevant documents for query: 'q'\n\n--- Document 1 ---\nContent: " ++
        String.mk (List.replicate 300 'a') ++ "\n" := by
  exact ⟨by decide, by decide, by decide, by decide, by decide, by decide⟩

/-- C10 (amended): the retrieve operations always return a non-empty
string; zero results render exactly the single "No documents found" line;
and a result block's content preview is the stripped chunk content,
truncated to 300 characters with an ellipsis marker exactly when the
stripped content exceeds 300 characters. -/
theorem retrieve_format_contract (results : List Doc)
    (scored : List (Doc × Nat)) (q : String) (showScore : Nat → String)
    (c : String) (embed : Except String (Doc → Nat))
    (rawSearch : (Doc → Nat) → Nat → List Entry → Except String (List Entry))
    (rawScored : (Doc → Nat) → Nat → List Entry → Except String (List (Entry × Nat)))
    (s : VSState) (k : Nat) (with_scores : Bool) (fm : Option Meta) :
    format_results [] q = "No documents found for query: '" ++ q ++ "'" ∧
    format_scored_results showScore [] q =
      "No documents found for query: '" ++ q ++ "'" ∧
    format_results results q ≠ "" ∧
    format_scored_results showScore scored q ≠ "" ∧
    retrieve_documents_structured embed rawSearch rawScored showScore s q k
      with_scores fm ≠ "" ∧
    (300 < (trimStr c).length →
      contentPreview c = takeStr 300 (trimStr c) ++ "...") ∧
    ((trimStr c).length ≤ 300 → contentPreview c = trimStr c) := by
  refine ⟨rfl, rfl, format_results_ne_empty results q,
    format_scored_results_ne_empty showScore scored q, ?_, ?_, ?_⟩
  · cases with_scores with
    | true =>
        simp only [retrieve_documents_structured]
        exact format_scored_results_ne_empty showScore _ q
    | false =>
        simp only [retrieve_documents_structured]
        exact format_results_ne_empty _ q
  · intro h
    simp only [contentPreview]
    rw [if_pos h]
  · intro h
    simp only [contentPreview]
    rw [if_neg (by omega)]

set_option maxRecDepth 40000 in
/-- Witness for C10 at concrete inputs: a long and a short content. -/
theorem retrieve_format_contract_witness :
    (300 < (trimStr (String.mk (List.replicate 302 'b'))).length) ∧
    contentPreview (String.mk (List.replicate 302 'b')) =
      takeStr 300 (trimStr (String.mk (List.replicate 302 'b'))) ++ "..." ∧
    ((trimStr "hi ").length ≤ 300) ∧
    contentPreview "hi " = trimStr "hi " := by
  have h1 := retrieve_format_contract [] [] "q" (fun _ => "0")
    (String.mk (List.replicate 302 'b')) (.error "e") (fun _ _ _ => .error "e")
    (fun _ _ _ => .error "e")
    { store_type := .faiss, collection_name := "c", persist_directory := "p",
      embedding_model := "m", entries := [] } 5 false none
  have h2 := retrieve_format_contract [] [] "q" (fun _ => "0") "hi "
    (.error "e") (fun _ _ _ => .error "e") (fun _ _ _ => .error "e")
    { store_type := .faiss, collection_name := "c", persist_directory := "p",
      embedding_model := "m", entries := [] } 5 false none
  refine ⟨by decide, h1.2.2.2.2.2.1 (by decide), by decide,
    h2.2.2.2.2.2.2 (by decide)⟩

theorem toBytesLE_length (k : Nat) : ∀ n, (toBytesLE k n).length = k := by
  induction k with
  | zero => intro n; rfl
  | succ k ih => intro n; simp [toBytesLE, ih]

theorem toBytesLE_lt (k : Nat) : ∀ n, ∀ b ∈ toBytesLE k n, b < 256 := by
  induction k with
  | zero => intro n b hb; simp [toBytesLE] at hb
  | succ k ih =>
      intro n b hb
      simp only [toBytesLE, List.mem_cons] at hb
      rcases hb with rfl | hb
      · exact Nat.mod_lt _ (by omega)
      · exact ih _ b hb

theorem md5Digest_length (bytes : List Nat) : (md5Digest bytes).length = 16 := by
  simp [md5Digest, toBytesLE_length]

theorem md5Digest_lt (bytes : List Nat) : ∀ b ∈ md5Digest bytes, b < 256 := by
  intro b hb
  simp only [md5Digest, List.mem_append] at hb
  rcases hb with ((h | h) | h) | h <;> exact toBytesLE_lt 4 _ b h

theorem natOfBytes_lt (l : List Nat) (h : ∀ b ∈ l, b < 256) :
    natOfBytes l < 256 ^ l.length := by
  induction l with
  | nil => simp [natOfBytes]
  | cons b rest ih =>
      have hb := h b (List.mem_cons_self b rest)
      have hr := ih fun x hx => h x (List.mem_cons_of_mem b hx)
      simp only [natOfBytes, List.length_cons, pow_succ]
      omega

theorem natOfBytes_inj : ∀ l1 l2 : List Nat, l1.length = l2.length →
    (∀ b ∈ l1, b < 256) → (∀ b ∈ l2, b < 256) →
    natOfBytes l1 = natOfBytes l2 → l1 = l2 := by
  intro l1
  induction l1 with
  | nil =>
      intro l2 hlen _ _ _
      cases l2 with
      | nil => rfl
      | cons b2 r2 => simp at hlen
  | cons b1 r1 ih =>
      intro l2 hlen h1 h2 heq
      cases l2 with
      | nil => simp at hlen
      | cons b2 r2 =>
          simp only [natOfBytes] at heq
          have hb1 := h1 b1 (List.mem_cons_self _ _)
          have hb2 := h2 b2 (List.mem_cons_self _ _)
          have hb : b1 = b2 ∧ natOfBytes r1 = natOfBytes r2 := by omega
          obtain ⟨rfl, hr⟩ := hb
          have hrest := ih r2 (by simpa using hlen)
            (fun x hx => h1 x (List.mem_cons_of_mem _ hx))
            (fun x hx => h2 x (List.mem_cons_of_mem _ hx)) hr
          rw [hrest]

/-- Pigeonhole: a function into a bounded range is not injective on `Nat`. -/
theorem exists_collision_of_bounded (N : Nat) (f : Nat → Nat)
    (hf : ∀ n, f n < N) : ∃ a b : Nat, a ≠ b ∧ f a = f b := by
  obtain ⟨i, j, hij, heq⟩ := Fintype.exists_ne_map_eq_of_card_lt
    (fun i : Fin (N + 1) => (⟨f i.1, hf i.1⟩ : Fin N))
    (by rw [Fintype.card_fin, Fintype.card_fin]; omega)
  refine ⟨i.1, j.1, fun h => hij (Fin.ext h), ?_⟩
  simpa using congrArg Fin.val heq

/-- MD5 maps infinitely many strings into a 128-bit digest space, so
`generate_doc_id` is not injective: some two distinct contents share a
`doc_id`. -/
theorem generate_doc_id_not_injective :
    ∃ x y : String, x ≠ y ∧ generate_doc_id x = generate_doc_id y := by
  obtain ⟨a, b, hab, heq⟩ := exists_collision_of_bounded (2 ^ 128)
    (fun n => natOfBytes (md5Digest (strBytes (String.mk (List.replicate n 'a')))))
    (fun n => by
      have h := natOfBytes_lt _
        (md5Digest_lt (strBytes (String.mk (List.replicate n 'a'))))
      rw [md5Digest_length] at h
      calc natOfBytes (md5Digest (strBytes (String.mk (List.replicate n 'a')))) <
            256 ^ 16 := h
        _ = 2 ^ 128 := by norm_num)
  have hdig := natOfBytes_inj _ _
    (by rw [md5Digest_length, md5Digest_length]) (md5Digest_lt _) (md5Digest_lt _)
    heq
  refine ⟨String.mk (List.replicate a 'a'), String.mk (List.replicate b 'a'),
    ?_, ?_⟩
  · intro h
    apply hab
    have h2 : List.replicate a 'a' = List.replicate b 'a' :=
      congrArg String.data h
    simpa using congrArg List.length h2
  · show md5Hex _ = md5Hex _
    unfold md5Hex
    rw [hdig]

set_option maxRecDepth 40000 in
/-- C1 counterexample: two files with the identical content `"hello"` at
the distinct paths `"a.txt"` and `"b.txt"` receive different `doc_id`s —
`process_file` hashes the path string, not the loaded content — and
`generate_doc_id` itself is not injective on contents, so `X ≠ Y` alone
does not guarantee distinct ids for `process_text` either. -/
theorem doc_id_content_hash_counterexample :
    (process_file false false
      (fun p => if p = "a.txt" ∨ p = "b.txt" then some ⟨"hello", 5, 0, 0⟩ else none)
      "a.txt" none).map Doc.content =
      (process_file false false
        (fun p => if p = "a.txt" ∨ p = "b.txt" then some ⟨"hello", 5, 0, 0⟩ else none)
        "b.txt" none).map Doc.content ∧
    (process_file false false
      (fun p => if p = "a.txt" ∨ p = "b.txt" then some ⟨"hello", 5, 0, 0⟩ else none)
      "a.txt" none).map (fun d => dget d.metadata "doc_id") ≠
      (process_file false false
        (fun p => if p = "a.txt" ∨ p = "b.txt" then some ⟨"hello", 5, 0, 0⟩ else none)
        "b.txt" none).map (fun d => dget d.metadata "doc_id") ∧
    (∃ x y : String, x ≠ y ∧ generate_doc_id x = generate_doc_id y) := by
  exact ⟨by decide, by decide, generate_doc_id_not_injective⟩

/-- C1 (amended): `doc_id` is a deterministic MD5 hash of an input
string. `process_text` hashes the text content, so identical content
always yields the identical id, and contents whose MD5 digests differ
yield different ids; `process_file` hashes the file's path string — not
the loaded content — so the same path always yields the same id while
identically-contented files at different paths get ids that differ
whenever the paths' digests differ. -/
theorem doc_id_derivation (x y : String) (pdf docx : Bool)
    (fs : String → Option FileInfo) (path : String) (fi : FileInfo)
    (hfs : fs path = some fi) (hsup : is_supported pdf docx path = true) :
    dget (process_text x none).metadata "doc_id" =
      some (.str (generate_doc_id x)) ∧
    (generate_doc_id x ≠ generate_doc_id y →
      dget (process_text x none).metadata "doc_id" ≠
        dget (process_text y none).metadata "doc_id") ∧
    ∀ d ∈ process_file pdf docx fs path none,
      dget d.metadata "doc_id" = some (.str (generate_doc_id path)) := by
  have hpt : ∀ z : String, dget (process_text z none).metadata "doc_id" =
      some (.str (generate_doc_id z)) := by
    intro z
    simp [process_text, dget]
  refine ⟨hpt x, ?_, ?_⟩
  · intro hne
    rw [hpt x, hpt y]
    intro h
    exact hne (by injection (Option.some_injective _ h))
  · intro d hd
    simp only [process_file, hfs, hsup, if_true, loadFile, List.map_cons,
      List.map_nil, List.mem_singleton] at hd
    subst hd
    simp only [dmerge, List.foldl]
    rw [dget_dset_other _ _ _ _ (by decide), dget_dset_other _ _ _ _ (by decide),
      dget_dset_other _ _ _ _ (by decide), dget_dset_same]

set_option maxRecDepth 40000 in
/-- Witness for C1 (amended) at concrete inputs: the text `"hello"`
against `"world"`, and the file `"a.txt"` on a one-file filesystem. -/
theorem doc_id_derivation_witness :
    dget (process_text "hello" none).metadata "doc_id" =
      some (.str (generate_doc_id "hello")) ∧
    dget (process_text "hello" none).metadata "doc_id" ≠
      dget (process_text "world" none).metadata "doc_id" ∧
    ∀ d ∈ process_file false false
        (fun p => if p = "a.txt" then some ⟨"hello", 5, 0, 0⟩ else none)
        "a.txt" none,
      dget d.metadata "doc_id" = some (.str (generate_doc_id "a.txt")) := by
  have h := doc_id_derivation "hello" "world" false false
    (fun p => if p = "a.txt" then some ⟨"hello", 5, 0, 0⟩ else none)
    "a.txt" ⟨"hello", 5, 0, 0⟩ (by decide) (by decide)
  exact ⟨h.1, h.2.1 (by decide), h.2.2⟩

/-- Witness for C2 at a concrete FAISS state and `k = 1`. -/
theorem faiss_dummy_after_init_and_clear_witness :
    (mkVectorStore "f0" .faiss none "c" "p" "m").entries = [("f0", dummyDoc)] ∧
    (clear_collection "f0"
      { store_type := .faiss, collection_name := "c", persist_directory := "p",
        embedding_model := "m",
        entries := [("e1", { content := "x", metadata := [] })] }).2.entries =
      [("f0", dummyDoc)] ∧
    similarity_search (.ok fun _ => 0) nativeSearch
      (mkVectorStore "f0" .faiss none "c" "p" "m") 1 none = [dummyDoc] := by
  have h := faiss_dummy_after_init_and_clear "f0" "c" "p" "m"
    { store_type := .faiss, collection_name := "c", persist_directory := "p",
      embedding_model := "m",
      entries := [("e1", { content := "x", metadata := [] })] }
    rfl 1 (by decide) (fun _ => 0)
  exact ⟨h.1, h.2.2.2.1, h.2.2.1⟩

end Rag
